import Mathlib

/-!
Verification of the screensaver application (`screensaver_app.py`).

The development shallowly embeds the parts of the program that the
specification talks about:

* the pure image-scaling function `resize_image` and the per-monitor
  rendering pipeline of `show_current_image_on_all`, over a small model
  of PIL pixel buffers (`Buffer`) that tracks dimensions and the
  provenance of every pixel (image content vs. a flat colour vs. the
  black padding PIL's `crop` produces outside the source);
* the `ScreenSaverApp` session state machine: `activate_screensaver`,
  `exit_screensaver`, `check_idle`, `next_slide`, `on_mouse_motion`,
  and the key/button handlers, as pure state transformers over an
  `AppState`, with the platform (filesystem, monitors, pointer, clock,
  idle time, randomness) supplied by an explicit `Env`.

Python's float arithmetic on scale ratios is modelled with exact
rationals; `int()` on a non-negative value is `⌊·⌋`, and `//` on
integers is floor division (`Int.fdiv`).
-/

namespace ScreensaverApp

/-- Python `int()` truncates toward zero. -/
def pyInt (q : ℚ) : ℤ := if 0 ≤ q then ⌊q⌋ else ⌈q⌉

/-- Provenance of one output pixel: sampled from the source image,
a flat colour (`Image.new` fill), or the black zero-fill that PIL's
`crop` produces for coordinates outside the cropped buffer. -/
inductive Pix where
  | src : Pix
  | color : String → Pix
  | pad : Pix
deriving DecidableEq

/-- A PIL pixel buffer, modelled as the tree of operations that built it.
`source w h` is a decoded image of size `w × h` (content abstract). -/
inductive Buffer where
  | source : Nat → Nat → Buffer
  | resize : Buffer → Nat → Nat → Buffer
  | new : Nat → Nat → String → Buffer
  | paste : Buffer → Buffer → ℤ → ℤ → Buffer
  | crop : Buffer → ℤ → ℤ → ℤ → ℤ → Buffer
deriving DecidableEq

/-- Width of a buffer.  PIL: `resize` takes the requested size, `new`
takes the requested size, `paste` is in place on the base image, and
`crop (l, t, r, b)` has size `(r - l, b - t)`. -/
def Buffer.width : Buffer → Nat
  | .source w _ => w
  | .resize _ w _ => w
  | .new w _ _ => w
  | .paste base _ _ _ => base.width
  | .crop _ l _ r _ => (r - l).toNat

/-- Height of a buffer (see `Buffer.width`). -/
def Buffer.height : Buffer → Nat
  | .source _ h => h
  | .resize _ _ h => h
  | .new _ h _ => h
  | .paste base _ _ _ => base.height
  | .crop _ _ t _ b => (b - t).toNat

/-- Provenance of the pixel at `(x, y)`.  `resize` samples back into its
argument; `paste` shows the overlay inside its rectangle and the base
elsewhere; `crop` shows the underlying buffer at the translated
coordinate and PIL's black zero-fill outside it. -/
def Buffer.pixAt : Buffer → Nat → Nat → Pix
  | .source _ _, _, _ => .src
  | .resize b nw nh, x, y => b.pixAt (x * b.width / nw) (y * b.height / nh)
  | .new _ _ c, _, _ => .color c
  | .paste base ov px py, x, y =>
      if px ≤ (x : ℤ) ∧ (x : ℤ) < px + ov.width ∧ py ≤ (y : ℤ) ∧ (y : ℤ) < py + ov.height then
        ov.pixAt ((x : ℤ) - px).toNat ((y : ℤ) - py).toNat
      else base.pixAt x y
  | .crop b l t _ _, x, y =>
      if 0 ≤ l + (x : ℤ) ∧ l + (x : ℤ) < b.width ∧ 0 ≤ t + (y : ℤ) ∧ t + (y : ℤ) < b.height then
        b.pixAt (l + (x : ℤ)).toNat (t + (y : ℤ)).toNat
      else .pad

/-- `resize_image(img, target_w, target_h, scale_mode)` from
`screensaver_app.py` lines 128–151, with Python float ratios modelled
exactly in ℚ. -/
def resize_image (img : Buffer) (target_w target_h : Nat) (scale_mode : String) : Buffer :=
  if scale_mode = "stretch" then
    .resize img target_w target_h
  else
    let iw := img.width
    let ih := img.height
    if iw = 0 ∨ ih = 0 then
      img
    else if scale_mode = "fit" then
      let r : ℚ := min ((target_w : ℚ) / iw) ((target_h : ℚ) / ih)
      .resize img (pyInt (iw * r)).toNat (pyInt (ih * r)).toNat
    else if scale_mode = "fill" then
      let r : ℚ := max ((target_w : ℚ) / iw) ((target_h : ℚ) / ih)
      let nw := (pyInt (iw * r)).toNat
      let nh := (pyInt (ih * r)).toNat
      let left := ((nw : ℤ) - target_w).fdiv 2
      let top := ((nh : ℤ) - target_h).fdiv 2
      .crop (.resize img nw nh) left top (left + target_w) (top + target_h)
    else
      img

/-- The per-monitor rendering step of `show_current_image_on_all`
(lines 514–524): `fit` is composed onto a background-coloured canvas of
the monitor's size; other modes use `resize_image` directly. -/
def render_label_image (base_img : Buffer) (W H : Nat) (scale_mode bg : String) : Buffer :=
  if scale_mode = "fit" then
    let resized := resize_image base_img W H "fit"
    let canvas := Buffer.new W H bg
    let x := ((W : ℤ) - resized.width).fdiv 2
    let y := ((H : ℤ) - resized.height).fdiv 2
    Buffer.paste canvas resized x y
  else
    resize_image base_img W H scale_mode

/-! ## Directory listing (`list_images_in_folder`) -/

/-- `SUPPORTED_EXTS` from line 17. -/
def SUPPORTED_EXTS : List String :=
  [".png", ".jpg", ".jpeg", ".bmp", ".gif", ".tiff", ".webp"]

/-- Index of the last occurrence of `c`, if any. -/
def lastIdxOf (c : Char) : List Char → Option Nat
  | [] => none
  | x :: xs =>
      match lastIdxOf c xs with
      | some i => some (i + 1)
      | none => if x = c then some 0 else none

/-- The extension part of `os.path.splitext(name)` for a plain file name
(no path separators): the suffix from the last dot on, except that a
dot at position 0 or preceded only by dots yields no extension. -/
def splitext_ext (name : String) : String :=
  let cs := name.data
  match lastIdxOf '.' cs with
  | none => ""
  | some i =>
      if 0 < i ∧ ¬ (cs.take i).all (· = '.') then String.mk (cs.drop i) else ""

/-- Python `str.lower()` (ASCII case folding suffices for the extension
strings involved). -/
def pyLower (str : String) : String := String.mk (str.data.map Char.toLower)

/-- `os.path.join(folder, name)` with a single separator. -/
def path_join (folder name : String) : String := folder ++ "/" ++ name

/-- One monitor rectangle `{left, top, width, height}` as produced by
`enum_monitors_windows` / the fallback in `get_all_monitors`. -/
structure MonRect where
  left : ℤ
  top : ℤ
  width : Nat
  height : Nat
deriving DecidableEq

/-- The platform / environment the application observes: filesystem
queries, monitor enumeration, pointer position (`none` models the
exception path of `winfo_pointerx`), wall-clock time, reported idle
seconds, the decoded image for a path (`none` = `open_image_safe`
failure), and the permutation `random.shuffle` would apply. -/
structure Env where
  isfile : String → Bool
  isdir : String → Bool
  listdir : String → List String
  monitors : List MonRect
  screen_w : Nat
  screen_h : Nat
  pointer : Option (ℤ × ℤ)
  now : ℚ
  idle : ℚ
  decode : String → Option Buffer
  shuffleFn : List String → List String

/-- `list_images_in_folder(folder)` (lines 154–162): the entries of the
directory in enumeration order, kept when they are files with a
supported extension (case-insensitive), joined with the folder. -/
def list_images_in_folder (env : Env) (folder : String) : List String :=
  if ¬ env.isdir folder then []
  else
    ((env.listdir folder).filter fun name =>
        env.isfile (path_join folder name) &&
          SUPPORTED_EXTS.contains (pyLower (splitext_ext name))).map
      (path_join folder)

/-- `get_all_monitors()` (lines 104–117): the platform's monitor list,
falling back to a single full-screen rectangle when it is empty. -/
def get_all_monitors (env : Env) : List MonRect :=
  if env.monitors = [] then
    [{ left := 0, top := 0, width := env.screen_w, height := env.screen_h }]
  else env.monitors

/-! ## Session state machine (`ScreenSaverApp`) -/

/-- The configuration dictionary (`default_config`, lines 21–34). -/
structure Config where
  mode : String
  image_path : String
  timeout_seconds : ℤ
  slideshow_interval : ℤ
  scale_mode : String
  background : String
  shuffle : Bool
  mouse_move_exit_pixels : ℤ
  allow_blank_single : Bool
  clock_overlay : Bool
  start_in_tray : Bool
deriving DecidableEq

/-- `default_config()` (lines 21–34). -/
def default_config : Config where
  mode := "single"
  image_path := ""
  timeout_seconds := 300
  slideshow_interval := 10
  scale_mode := "fit"
  background := "#000000"
  shuffle := true
  mouse_move_exit_pixels := 10
  allow_blank_single := true
  clock_overlay := false
  start_in_tray := false

/-- The values currently entered in the settings UI, already parsed
(the `int(...)` conversions succeeded); `activate_screensaver` copies
them into the config (lines 356–366). -/
structure UIVals where
  mode : String
  image_path : String
  timeout_seconds : ℤ
  slideshow_interval : ℤ
  scale_mode : String
  background : String
  shuffle : Bool
  allow_blank_single : Bool
  clock_overlay : Bool
deriving DecidableEq

/-- `self.config.update({...})` at lines 356–366: every key listed
there is replaced from the UI; `mouse_move_exit_pixels` and
`start_in_tray` are not in the update dictionary and keep their values. -/
def applyUI (cfg : Config) (ui : UIVals) : Config :=
  { cfg with
    mode := ui.mode
    image_path := ui.image_path
    timeout_seconds := ui.timeout_seconds
    slideshow_interval := ui.slideshow_interval
    scale_mode := ui.scale_mode
    background := ui.background
    shuffle := ui.shuffle
    allow_blank_single := ui.allow_blank_single
    clock_overlay := ui.clock_overlay }

/-- What a saver label currently displays: the initial/blank background
colour, or a rendered image buffer. -/
inductive Frame where
  | blank : String → Frame
  | image : Buffer → String → Frame
deriving DecidableEq

/-- One overlay window together with its label content and the entry of
`activated_mouse_positions` for it (`none` both for the exception path
at creation and for a baseline reset). -/
structure Surface where
  mon : MonRect
  baseline : Option (ℤ × ℤ)
  content : Frame
deriving DecidableEq

/-- The mutable fields of `ScreenSaverApp` that the session state
machine reads and writes, plus the booleans `tray` (a tray icon is
available) and `settings_visible` (the settings window is viewable).
`*_job` fields record whether a callback is currently scheduled. -/
structure AppState where
  config : Config
  saver_active : Bool
  background_only : Bool
  surfaces : List Surface
  current_images : List (Option String)
  slideshow_index : Nat
  slideshow_job : Bool
  idle_check_job : Bool
  clock_job : Bool
  root_key_bound : Bool
  activated_at : ℚ
  tray : Bool
  settings_visible : Bool
deriving DecidableEq

/-- The state right after `__init__` (lines 167–204): inactive, no
surfaces, idle check scheduled; the settings window is shown unless
`start_in_tray` hides it. -/
def init_state (cfg : Config) (tray : Bool) : AppState where
  config := cfg
  saver_active := false
  background_only := false
  surfaces := []
  current_images := []
  slideshow_index := 0
  slideshow_job := false
  idle_check_job := true
  clock_job := false
  root_key_bound := false
  activated_at := 0
  tray := tray
  settings_visible := ¬ cfg.start_in_tray

/-- `schedule_slideshow` (lines 466–470): cancel any pending slideshow
callback and schedule a new one. -/
def schedule_slideshow (s : AppState) : AppState := { s with slideshow_job := true }

/-- `schedule_clock_overlay` (lines 531–534). -/
def schedule_clock_overlay (s : AppState) : AppState := { s with clock_job := true }

/-- `schedule_idle_check` (lines 330–333). -/
def schedule_idle_check (s : AppState) : AppState := { s with idle_check_job := true }

/-- `show_current_image_on_all` (lines 492–528): render the image at
`slideshow_index` (or the plain background) onto every label. -/
def show_current_image_on_all (env : Env) (s : AppState) : AppState :=
  if ¬ s.saver_active ∨ s.current_images = [] then s
  else
    let path := s.current_images.getD s.slideshow_index none
    let bg := s.config.background
    let scale_mode := s.config.scale_mode
    match path with
    | none =>
        { s with surfaces := s.surfaces.map fun sf => { sf with content := .blank bg } }
    | some p =>
        if s.background_only then
          { s with surfaces := s.surfaces.map fun sf => { sf with content := .blank bg } }
        else
          match env.decode p with
          | none =>
              { s with surfaces := s.surfaces.map fun sf => { sf with content := .blank bg } }
          | some base_img =>
              { s with
                surfaces := s.surfaces.map fun sf =>
                  { sf with
                    content :=
                      .image (render_label_image base_img sf.mon.width sf.mon.height scale_mode bg)
                        bg } }

/-- Lines 396–464 of `activate_screensaver`: everything after the image
set has been resolved (store it, reset the index, hide the settings
window unless previewing, mark active, create one surface per monitor
with the pointer position as baseline, render the first frame, and
schedule the slideshow or clock timer). -/
def finish_activation (env : Env) (preview : Bool) (images : List (Option String))
    (s : AppState) : AppState :=
  let s1 := { s with current_images := images, slideshow_index := 0 }
  let s2 :=
    if ¬ preview then { s1 with settings_visible := false } else s1
  let s3 :=
    { s2 with
      saver_active := true
      surfaces :=
        (get_all_monitors env).map fun mon =>
          { mon := mon, baseline := env.pointer, content := .blank (s2.config.background) }
      activated_at := env.now }
  let s4 := show_current_image_on_all env s3
  if ¬ s4.background_only ∧ 1 < s4.current_images.length then
    schedule_slideshow s4
  else if s4.background_only ∧ s4.config.clock_overlay then
    schedule_clock_overlay s4
  else s4

/-- `activate_screensaver` (lines 346–464): no-op when already active;
otherwise bind the root key handler, refresh the config from the UI,
resolve the image set (a `some` second component is the error message
of the blocking notice shown when that fails, and activation aborts),
then build the session.  The `single`-mode sentinel list `[None]`
becomes `[none]` with `background_only` set. -/
def activate_screensaver (env : Env) (ui : UIVals) (preview : Bool) (s : AppState) :
    AppState × Option String :=
  if s.saver_active then (s, none)
  else
    let s1 := { s with root_key_bound := true }
    let cfg := applyUI s1.config ui
    let s2 := { s1 with config := cfg, background_only := false }
    if cfg.mode = "single" then
      if cfg.image_path ≠ "" ∧ env.isfile cfg.image_path then
        (finish_activation env preview [some cfg.image_path] s2, none)
      else if cfg.allow_blank_single then
        (finish_activation env preview [none] { s2 with background_only := true }, none)
      else
        (s2, some "유효한 이미지 파일을 선택하세요.")
    else
      let files := list_images_in_folder env cfg.image_path
      if files = [] then
        (s2, some "폴더에 표시할 이미지가 없습니다.")
      else
        let files' := if cfg.shuffle then env.shuffleFn files else files
        (finish_activation env preview (files'.map some) s2, none)

/-- `exit_screensaver` (lines 573–602): no-op when already idle;
otherwise cancel both timers, destroy every overlay window, mark idle,
and restore the settings window when there is no tray icon and it is
not currently viewable. -/
def exit_screensaver (s : AppState) : AppState :=
  if ¬ s.saver_active then s
  else
    let s1 := { s with slideshow_job := false, clock_job := false }
    let s2 := { s1 with surfaces := [], saver_active := false }
    if ¬ s2.tray ∧ ¬ s2.settings_visible then { s2 with settings_visible := true } else s2

/-- The `<Any-KeyPress>` / `<Key>` bindings (lines 422–423, 436): a key
press on a surface invokes `exit_screensaver`. -/
def on_key_press (s : AppState) : AppState := exit_screensaver s

/-- The `<Any-ButtonPress>` binding (lines 424, 437). -/
def on_button_press (s : AppState) : AppState := exit_screensaver s

/-- `next_slide` (lines 472–478): advance the index modulo the list
length, re-render every surface, and reschedule only when more than one
image is in the list. -/
def next_slide (env : Env) (s : AppState) : AppState :=
  if ¬ s.saver_active then s
  else
    let s1 := { s with slideshow_index := (s.slideshow_index + 1) % s.current_images.length }
    let s2 := show_current_image_on_all env s1
    if 1 < s2.current_images.length then schedule_slideshow s2 else s2

/-- One firing of the slideshow timer: the pending callback is consumed
and `next_slide` runs. -/
def fire_slideshow (env : Env) (s : AppState) : AppState :=
  if s.slideshow_job then next_slide env { s with slideshow_job := false } else s

/-- `on_mouse_motion` (lines 552–571): ignore motion when idle or
within 0.2 s of activation; establish the window's baseline on its
first observed position; otherwise exit when either axis moved at
least `mouse_move_exit_pixels`. -/
def on_mouse_motion (env : Env) (widx : Nat) (ex ey : ℤ) (s : AppState) : AppState :=
  if ¬ s.saver_active then s
  else
    let thr := s.config.mouse_move_exit_pixels
    if env.now - s.activated_at < 1 / 5 then s
    else
      match s.surfaces[widx]? with
      | none => s
      | some sf =>
          match sf.baseline with
          | none =>
              { s with surfaces := s.surfaces.set widx { sf with baseline := some (ex, ey) } }
          | some (ox, oy) =>
              let dx := |ex - ox|
              let dy := |ey - oy|
              if thr ≤ dx ∨ thr ≤ dy then exit_screensaver s else s

/-- `check_idle` (lines 335–343): while idle, auto-activate when the
configured timeout is positive and the reported idle time has reached
it; in all cases reschedule the idle check (the `finally` block). -/
def check_idle (env : Env) (ui : UIVals) (s : AppState) : AppState :=
  let s' :=
    if ¬ s.saver_active ∧ 0 < s.config.timeout_seconds ∧
        (s.config.timeout_seconds : ℚ) ≤ env.idle then
      (activate_screensaver env ui false s).1
    else s
  schedule_idle_check s'

/-! ## Concrete fixtures used by witnesses and counterexamples -/

/-- A single 8 × 6 monitor. -/
def mon0 : MonRect := { left := 0, top := 0, width := 8, height := 6 }

/-- An environment with an empty filesystem, one monitor, pointer at
(5, 5), clock at 0 and no idle time. -/
def envA : Env where
  isfile := fun _ => false
  isdir := fun _ => false
  listdir := fun _ => []
  monitors := [mon0]
  screen_w := 8
  screen_h := 6
  pointer := some (5, 5)
  now := 0
  idle := 0
  decode := fun _ => none
  shuffleFn := fun l => l

/-- `envA` one second later (the settle guard has elapsed). -/
def envM : Env := { envA with now := 1 }

/-- An environment whose every path is a directory listing
`["b.png", "a.jpg", "c.txt"]` of plain files, every image decoding to a
2 × 2 source. -/
def envF : Env :=
  { envA with
    isfile := fun _ => true
    isdir := fun _ => true
    listdir := fun _ => ["b.png", "a.jpg", "c.txt"]
    decode := fun _ => some (Buffer.source 2 2) }

/-- UI values matching `default_config` (single mode, blank path,
background-only allowed). -/
def uiBlank : UIVals where
  mode := "single"
  image_path := ""
  timeout_seconds := 300
  slideshow_interval := 10
  scale_mode := "fit"
  background := "#000000"
  shuffle := true
  allow_blank_single := true
  clock_overlay := false

/-- `uiBlank` with background-only mode disallowed. -/
def uiStrict : UIVals := { uiBlank with allow_blank_single := false }

/-- Folder mode over `/pics` with shuffling disabled. -/
def uiFolder : UIVals :=
  { uiBlank with mode := "folder", image_path := "/pics", shuffle := false }

/-- A surface on `mon0` whose motion baseline is (100, 200). -/
def sfM : Surface := { mon := mon0, baseline := some (100, 200), content := .blank "#000000" }

/-- An active single-surface session with the default config
(motion threshold 10), activated at time 0. -/
def stM : AppState :=
  { init_state default_config false with
    saver_active := true
    surfaces := [sfM]
    current_images := [none]
    background_only := true
    activated_at := 0 }

/-- An active 3-image slideshow session at index 0 with a pending
slideshow callback. -/
def stC6 : AppState :=
  { init_state default_config false with
    saver_active := true
    surfaces := [sfM]
    current_images := [some "a", some "b", some "c"]
    slideshow_index := 0
    slideshow_job := true
    activated_at := 0 }

/-- The state reached by activating in single mode with a blank path
(background-only) and exiting again: idle, with `background_only`
still `true`. -/
def stIdleBg : AppState :=
  exit_screensaver (activate_screensaver envA uiBlank false (init_state default_config false)).1

/-- An idle state whose configured timeout is 0 (auto-activation
disabled). -/
def stT0 : AppState :=
  { init_state { default_config with timeout_seconds := 0 } false with idle_check_job := true }

/-! ## Helper lemmas -/

theorem pyInt_of_nonneg {q : ℚ} (h : 0 ≤ q) : pyInt q = ⌊q⌋ := if_pos h

/-- If `r` is at least `tw / iw` (with `iw > 0`), then the truncation of
`iw * r` is at least `tw`. -/
theorem le_pyInt_mul {iw tw : ℕ} {r : ℚ} (hw : 0 < iw) (hr : (tw : ℚ) / iw ≤ r) :
    (tw : ℤ) ≤ pyInt ((iw : ℚ) * r) := by
  have hiw : (iw : ℚ) ≠ 0 := by positivity
  have h1 : (tw : ℚ) ≤ (iw : ℚ) * r := by
    calc (tw : ℚ) = (iw : ℚ) * ((tw : ℚ) / iw) := (mul_div_cancel₀ _ hiw).symm
      _ ≤ (iw : ℚ) * r := by
          apply mul_le_mul_of_nonneg_left hr
          positivity
  have h0 : 0 ≤ (iw : ℚ) * r := le_trans (by positivity) h1
  rw [pyInt_of_nonneg h0]
  exact Int.le_floor.mpr (by exact_mod_cast h1)

theorem le_toNat_pyInt_mul {iw tw : ℕ} {r : ℚ} (hw : 0 < iw) (hr : (tw : ℚ) / iw ≤ r) :
    tw ≤ (pyInt ((iw : ℚ) * r)).toNat := by
  have h := le_pyInt_mul hw hr
  omega

theorem exit_sets_idle {s : AppState} (h : s.saver_active = true) :
    (exit_screensaver s).saver_active = false := by
  unfold exit_screensaver
  rw [if_neg (by simp [h])]
  dsimp only
  split <;> rfl

theorem show_current_preserves_images (env : Env) (s : AppState) :
    (show_current_image_on_all env s).current_images = s.current_images := by
  unfold show_current_image_on_all
  dsimp only
  repeat' split
  all_goals rfl

theorem show_current_preserves_index (env : Env) (s : AppState) :
    (show_current_image_on_all env s).slideshow_index = s.slideshow_index := by
  unfold show_current_image_on_all
  dsimp only
  repeat' split
  all_goals rfl

theorem show_current_preserves_job (env : Env) (s : AppState) :
    (show_current_image_on_all env s).slideshow_job = s.slideshow_job := by
  unfold show_current_image_on_all
  dsimp only
  repeat' split
  all_goals rfl

theorem finish_activation_images (env : Env) (preview : Bool) (images : List (Option String))
    (s : AppState) : (finish_activation env preview images s).current_images = images := by
  unfold finish_activation schedule_slideshow schedule_clock_overlay
  dsimp only
  repeat' split
  all_goals simp [show_current_preserves_images]

/-- When the session is active with a non-background image list whose
current entry decodes, `show_current_image_on_all` re-renders every
label from that image. -/
theorem show_current_renders (env : Env) (s : AppState) (p : String) (img : Buffer)
    (hactive : s.saver_active = true)
    (hne : s.current_images ≠ [])
    (hbg : s.background_only = false)
    (hpath : s.current_images.getD s.slideshow_index none = some p)
    (hdec : env.decode p = some img) :
    show_current_image_on_all env s =
      { s with
        surfaces := s.surfaces.map fun sf =>
          { sf with
            content :=
              .image (render_label_image img sf.mon.width sf.mon.height s.config.scale_mode
                  s.config.background) s.config.background } } := by
  unfold show_current_image_on_all
  rw [if_neg (by simp [hactive, hne])]
  simp only [hpath, hbg, hdec]
  rfl

theorem envM_guard_elapsed : ¬ (envM.now - stM.activated_at < 1 / 5) := by
  show ¬ ((1 : ℚ) - 0 < 1 / 5)
  norm_num

theorem envA_guard_active : envA.now - stM.activated_at < 1 / 5 := by
  show (0 : ℚ) - 0 < 1 / 5
  norm_num

/-! ## C1 / C5 / C10 : the rendering pipeline -/

/-- C1 (amended): for every source image with nonzero width and height,
every target size and every scale mode in {fit, fill, stretch}, the
buffer the rendering pipeline puts on a surface has exactly the target
dimensions. -/
theorem render_dims_eq_target (img : Buffer) (W H : ℕ) (scale_mode bg : String)
    (hmode : scale_mode = "fit" ∨ scale_mode = "fill" ∨ scale_mode = "stretch")
    (hw : 0 < img.width) (hh : 0 < img.height) :
    (render_label_image img W H scale_mode bg).width = W ∧
      (render_label_image img W H scale_mode bg).height = H := by
  rcases hmode with h | h | h <;> subst h
  · simp only [render_label_image, if_true]
    exact ⟨rfl, rfl⟩
  · simp only [render_label_image]
    rw [if_neg (by decide)]
    simp only [resize_image]
    rw [if_neg (by decide), if_neg (by omega), if_neg (by decide)]
    simp only [if_true]
    refine ⟨?_, ?_⟩ <;> simp only [Buffer.width, Buffer.height] <;> omega
  · simp only [render_label_image]
    rw [if_neg (by decide)]
    simp only [resize_image, if_true]
    exact ⟨rfl, rfl⟩

/-- Witness for `render_dims_eq_target` at a concrete input. -/
theorem render_dims_eq_target_witness :
    (render_label_image (Buffer.source 2 3) 7 5 "fill" "#000000").width = 7 ∧
      (render_label_image (Buffer.source 2 3) 7 5 "fill" "#000000").height = 5 :=
  render_dims_eq_target (Buffer.source 2 3) 7 5 "fill" "#000000" (Or.inr (Or.inl rfl))
    (by decide) (by decide)

/-- C1 (counterexample to the claim as stated): a 0 × 5 source image in
`fill` mode is returned unchanged by `resize_image`, so the pipeline
produces a 0 × 5 buffer, not the 3 × 4 target. -/
theorem render_dims_zero_width_counterexample :
    ¬ ((render_label_image (Buffer.source 0 5) 3 4 "fill" "#000000").width = 3 ∧
        (render_label_image (Buffer.source 0 5) 3 4 "fill" "#000000").height = 4) := by
  decide

/-- C10: when a source dimension is 0, `fit` and `fill` return the
image unchanged, so the scale-ratio divisions are never reached with a
zero denominator. -/
theorem resize_image_zero_dim_unchanged (img : Buffer) (tw th : ℕ)
    (h : img.width = 0 ∨ img.height = 0) :
    resize_image img tw th "fit" = img ∧ resize_image img tw th "fill" = img := by
  constructor <;>
  · simp only [resize_image]
    rw [if_neg (by decide), if_pos h]

/-- Witness for `resize_image_zero_dim_unchanged`. -/
theorem resize_image_zero_dim_unchanged_witness :
    resize_image (Buffer.source 0 3) 7 5 "fit" = Buffer.source 0 3 ∧
      resize_image (Buffer.source 0 3) 7 5 "fill" = Buffer.source 0 3 :=
  resize_image_zero_dim_unchanged (Buffer.source 0 3) 7 5 (Or.inl rfl)

/-- C5: for a source image with nonzero dimensions, `fill` scales both
axes by `ratio = max(targetW/srcW, targetH/srcH)` and center-crops with
`left = (scaledW - targetW) // 2` (top analogous); the output has
exactly the target dimensions and every one of its pixels is sampled
from the image — none is the background colour or padding. -/
theorem resize_fill_centered_no_border (iw ih tw th nw nh : ℕ) (left top : ℤ)
    (hw : 0 < iw) (hh : 0 < ih)
    (hnw : nw = (pyInt ((iw : ℚ) * max ((tw : ℚ) / iw) ((th : ℚ) / ih))).toNat)
    (hnh : nh = (pyInt ((ih : ℚ) * max ((tw : ℚ) / iw) ((th : ℚ) / ih))).toNat)
    (hleft : left = ((nw : ℤ) - tw).fdiv 2)
    (htop : top = ((nh : ℤ) - th).fdiv 2) :
    resize_image (Buffer.source iw ih) tw th "fill" =
        Buffer.crop (Buffer.resize (Buffer.source iw ih) nw nh) left top (left + tw)
          (top + th) ∧
      (resize_image (Buffer.source iw ih) tw th "fill").width = tw ∧
      (resize_image (Buffer.source iw ih) tw th "fill").height = th ∧
      ∀ x y, x < tw → y < th →
        (resize_image (Buffer.source iw ih) tw th "fill").pixAt x y = Pix.src := by
  have htw : tw ≤ nw := by
    rw [hnw]
    exact le_toNat_pyInt_mul hw (le_max_left _ _)
  have hth : th ≤ nh := by
    rw [hnh]
    exact le_toNat_pyInt_mul hh (le_max_right _ _)
  have hleft' : 0 ≤ left ∧ left + tw ≤ nw := by
    rw [hleft, Int.fdiv_eq_ediv _ (by decide)]
    omega
  have htop' : 0 ≤ top ∧ top + th ≤ nh := by
    rw [htop, Int.fdiv_eq_ediv _ (by decide)]
    omega
  have heq : resize_image (Buffer.source iw ih) tw th "fill" =
      Buffer.crop (Buffer.resize (Buffer.source iw ih) nw nh) left top (left + tw)
        (top + th) := by
    simp only [resize_image, Buffer.width, Buffer.height]
    rw [if_neg (by decide), if_neg (by omega), if_neg (by decide)]
    simp only [if_true]
    rw [hleft, htop, hnw, hnh]
  refine ⟨heq, ?_, ?_, ?_⟩
  · rw [heq]; simp only [Buffer.width]; omega
  · rw [heq]; simp only [Buffer.height]; omega
  · intro x y hx hy
    rw [heq]
    simp only [Buffer.pixAt, Buffer.width, Buffer.height]
    rw [if_pos (by omega)]

/-- Witness for `resize_fill_centered_no_border` at a concrete input. -/
theorem resize_fill_centered_no_border_witness :
    resize_image (Buffer.source 2 3) 7 5 "fill" =
        Buffer.crop
          (Buffer.resize (Buffer.source 2 3)
            (pyInt ((2 : ℚ) * max ((7 : ℚ) / 2) ((5 : ℚ) / 3))).toNat
            (pyInt ((3 : ℚ) * max ((7 : ℚ) / 2) ((5 : ℚ) / 3))).toNat)
          (((((pyInt ((2 : ℚ) * max ((7 : ℚ) / 2) ((5 : ℚ) / 3))).toNat : ℤ)) - 7).fdiv 2)
          (((((pyInt ((3 : ℚ) * max ((7 : ℚ) / 2) ((5 : ℚ) / 3))).toNat : ℤ)) - 5).fdiv 2)
          ((((((pyInt ((2 : ℚ) * max ((7 : ℚ) / 2) ((5 : ℚ) / 3))).toNat : ℤ)) - 7).fdiv 2) + 7)
          ((((((pyInt ((3 : ℚ) * max ((7 : ℚ) / 2) ((5 : ℚ) / 3))).toNat : ℤ)) - 5).fdiv 2) +
            5) ∧
      (resize_image (Buffer.source 2 3) 7 5 "fill").width = 7 ∧
      (resize_image (Buffer.source 2 3) 7 5 "fill").height = 5 ∧
      ∀ x y, x < 7 → y < 5 →
        (resize_image (Buffer.source 2 3) 7 5 "fill").pixAt x y = Pix.src :=
  resize_fill_centered_no_border 2 3 7 5 _ _ _ _ (by decide) (by decide) rfl rfl rfl rfl

/-! ## C4 : idempotent exit / activate -/

/-- C4: `exit_screensaver` while the session is idle is a no-op (no
error, no state change), and `activate_screensaver` while the session
is already active is a no-op. -/
theorem exit_idle_activate_active_noop (env : Env) (ui : UIVals) (preview : Bool)
    (s : AppState) :
    (s.saver_active = false → exit_screensaver s = s) ∧
      (s.saver_active = true → activate_screensaver env ui preview s = (s, none)) := by
  constructor
  · intro h
    unfold exit_screensaver
    rw [if_pos (by simp [h])]
  · intro h
    unfold activate_screensaver
    rw [if_pos h]

/-- Witness for `exit_idle_activate_active_noop`: a concrete idle state
and a concrete active state. -/
theorem exit_idle_activate_active_noop_witness :
    exit_screensaver (init_state default_config false) = init_state default_config false ∧
      activate_screensaver envA uiBlank false stM = (stM, none) :=
  ⟨(exit_idle_activate_active_noop envA uiBlank false (init_state default_config false)).1 rfl,
    (exit_idle_activate_active_noop envA uiBlank false stM).2 rfl⟩

/-! ## C3 : motion threshold -/

/-- C3: for a motion event on a surface with an established origin,
past the settle guard, exit is triggered exactly when one axis moved at
least `mouse_move_exit_pixels`; below the threshold the state is
entirely unchanged. -/
theorem motion_exit_iff_threshold (env : Env) (widx : ℕ) (ex ey ox oy : ℤ) (s : AppState)
    (sf : Surface)
    (hactive : s.saver_active = true)
    (hguard : ¬ (env.now - s.activated_at < 1 / 5))
    (hsf : s.surfaces[widx]? = some sf)
    (hbase : sf.baseline = some (ox, oy)) :
    ((on_mouse_motion env widx ex ey s).saver_active = false ↔
        s.config.mouse_move_exit_pixels ≤ |ex - ox| ∨
          s.config.mouse_move_exit_pixels ≤ |ey - oy|) ∧
      (¬ (s.config.mouse_move_exit_pixels ≤ |ex - ox| ∨
            s.config.mouse_move_exit_pixels ≤ |ey - oy|) →
        on_mouse_motion env widx ex ey s = s) := by
  have hred : on_mouse_motion env widx ex ey s =
      if s.config.mouse_move_exit_pixels ≤ |ex - ox| ∨
          s.config.mouse_move_exit_pixels ≤ |ey - oy| then
        exit_screensaver s
      else s := by
    unfold on_mouse_motion
    rw [if_neg (by simp [hactive])]
    dsimp only
    rw [if_neg hguard]
    simp only [hsf, hbase]
  by_cases hc : s.config.mouse_move_exit_pixels ≤ |ex - ox| ∨
      s.config.mouse_move_exit_pixels ≤ |ey - oy|
  · rw [hred, if_pos hc]
    exact ⟨⟨fun _ => hc, fun _ => exit_sets_idle hactive⟩, fun hn => absurd hc hn⟩
  · rw [hred, if_neg hc]
    refine ⟨⟨fun hfalse => ?_, fun hc' => absurd hc' hc⟩, fun _ => rfl⟩
    rw [hactive] at hfalse
    exact absurd hfalse (by decide)

/-- Witness for `motion_exit_iff_threshold`: at threshold 10 with
origin (100, 200), a motion to (109, 200) (dx = 9) leaves the session
untouched, while a motion to (110, 200) (dx = 10) exits. -/
theorem motion_exit_iff_threshold_witness :
    on_mouse_motion envM 0 109 200 stM = stM ∧
      (on_mouse_motion envM 0 110 200 stM).saver_active = false :=
  ⟨(motion_exit_iff_threshold envM 0 109 200 100 200 stM sfM rfl envM_guard_elapsed rfl
        rfl).2 (by decide),
    (motion_exit_iff_threshold envM 0 110 200 100 200 stM sfM rfl envM_guard_elapsed rfl
        rfl).1.mpr (Or.inl (by decide))⟩

/-! ## C7 : 200 ms settle guard suppresses motion only -/

/-- C7: within 0.2 s of activation, a motion event is ignored entirely,
while a key press or a pointer-button press still exits. -/
theorem settle_guard_motion_only (env : Env) (widx : ℕ) (ex ey : ℤ) (s : AppState)
    (hactive : s.saver_active = true)
    (hguard : env.now - s.activated_at < 1 / 5) :
    on_mouse_motion env widx ex ey s = s ∧
      (on_key_press s).saver_active = false ∧
      (on_button_press s).saver_active = false := by
  refine ⟨?_, exit_sets_idle hactive, exit_sets_idle hactive⟩
  unfold on_mouse_motion
  rw [if_neg (by simp [hactive])]
  dsimp only
  rw [if_pos hguard]

/-- Witness for `settle_guard_motion_only`: at time 0 (the activation
instant) a large motion does not exit, but a key press and a button
press do. -/
theorem settle_guard_motion_only_witness :
    on_mouse_motion envA 0 500 500 stM = stM ∧
      (on_key_press stM).saver_active = false ∧
      (on_button_press stM).saver_active = false :=
  settle_guard_motion_only envA 0 500 500 stM rfl envA_guard_active

/-! ## C9 : idle-check timeout guard -/

/-- C9: the periodic idle check never activates when the configured
timeout is zero or negative (the state is only rescheduled), and
whenever it does activate, the timeout was positive and the reported
idle time had reached it. -/
theorem check_idle_timeout_guard (env : Env) (ui : UIVals) (s : AppState) :
    (s.config.timeout_seconds ≤ 0 → check_idle env ui s = schedule_idle_check s) ∧
      ((check_idle env ui s).saver_active = true → s.saver_active = false →
        0 < s.config.timeout_seconds ∧ (s.config.timeout_seconds : ℚ) ≤ env.idle) := by
  constructor
  · intro h
    unfold check_idle
    rw [if_neg (by omega)]
  · intro h1 h2
    unfold check_idle at h1
    by_cases hc : ¬ s.saver_active = true ∧ 0 < s.config.timeout_seconds ∧
        (s.config.timeout_seconds : ℚ) ≤ env.idle
    · exact hc.2
    · rw [if_neg hc] at h1
      have : (schedule_idle_check s).saver_active = s.saver_active := rfl
      rw [this, h2] at h1
      exact absurd h1 (by decide)

/-- Witness for `check_idle_timeout_guard`: with `timeout_seconds = 0`
the idle check only reschedules itself. -/
theorem check_idle_timeout_guard_witness :
    check_idle envA uiBlank stT0 = schedule_idle_check stT0 :=
  (check_idle_timeout_guard envA uiBlank stT0).1 (by decide)

/-! ## C6 : slideshow tick -/

/-- C6: a slideshow timer firing while active advances the index to
`(index + 1) mod length`, re-renders every surface from the new index's
image, and leaves a callback scheduled exactly when the list has more
than one image. -/
theorem slideshow_fire_advances (env : Env) (s : AppState) (p : String) (img : Buffer)
    (hactive : s.saver_active = true)
    (hjob : s.slideshow_job = true)
    (hn : 0 < s.current_images.length)
    (hbg : s.background_only = false)
    (hpath : s.current_images.getD ((s.slideshow_index + 1) % s.current_images.length) none
        = some p)
    (hdec : env.decode p = some img) :
    (fire_slideshow env s).slideshow_index
        = (s.slideshow_index + 1) % s.current_images.length ∧
      (fire_slideshow env s).slideshow_job = decide (1 < s.current_images.length) ∧
      (fire_slideshow env s).surfaces = s.surfaces.map (fun sf =>
        { sf with
          content := .image (render_label_image img sf.mon.width sf.mon.height
              s.config.scale_mode s.config.background) s.config.background }) := by
  have hne : s.current_images ≠ [] := by
    intro h0
    rw [h0] at hn
    simp at hn
  have h2 := show_current_renders env
    { s with
        slideshow_job := false
        slideshow_index := (s.slideshow_index + 1) % s.current_images.length }
    p img hactive hne hbg hpath hdec
  have hfire : fire_slideshow env s =
      (if 1 < s.current_images.length then
        schedule_slideshow (show_current_image_on_all env
          { s with
              slideshow_job := false
              slideshow_index := (s.slideshow_index + 1) % s.current_images.length })
      else
        show_current_image_on_all env
          { s with
              slideshow_job := false
              slideshow_index := (s.slideshow_index + 1) % s.current_images.length }) := by
    unfold fire_slideshow next_slide
    rw [if_pos hjob]
    dsimp only
    rw [if_neg (by simp [hactive])]
    rw [h2]
  rw [hfire, h2]
  by_cases hlen : 1 < s.current_images.length
  · rw [if_pos hlen]
    refine ⟨rfl, ?_, rfl⟩
    simp [schedule_slideshow, hlen]
  · rw [if_neg hlen]
    refine ⟨rfl, ?_, rfl⟩
    simp [hlen]

/-- Witness for `slideshow_fire_advances`: a 3-image slideshow ticked
three times from index 0 visits indices 1, 2, 0 and keeps rescheduling. -/
theorem slideshow_fire_advances_witness :
    (fire_slideshow envF stC6).slideshow_index = 1 ∧
      (fire_slideshow envF (fire_slideshow envF stC6)).slideshow_index = 2 ∧
      (fire_slideshow envF (fire_slideshow envF (fire_slideshow envF stC6))).slideshow_index
        = 0 ∧
      (fire_slideshow envF stC6).slideshow_job = decide (1 < stC6.current_images.length) :=
  ⟨((slideshow_fire_advances envF stC6 "b" (Buffer.source 2 2) rfl rfl (by decide) rfl
        (by decide) rfl).1).trans (by decide),
    by decide, by decide,
    (slideshow_fire_advances envF stC6 "b" (Buffer.source 2 2) rfl rfl (by decide) rfl
        (by decide) rfl).2.1⟩

/-! ## C2 : failed activation -/

/-- C2 (amended): when the image set cannot be resolved (single mode
with an unusable path and `allow_blank_single` off, or folder mode with
an empty listing), activation reports the blocking error and aborts:
the session stays idle with no surfaces created, no timers started and
the image list untouched — but the abort is not entirely state-free:
the root key binding has been added, the config has been refreshed from
the UI, and `background_only` has been reset to `false`. -/
theorem activation_failure_aborts (env : Env) (ui : UIVals) (preview : Bool) (s : AppState)
    (hidle : s.saver_active = false)
    (hfail :
      ((applyUI s.config ui).mode = "single" ∧
          ¬ ((applyUI s.config ui).image_path ≠ "" ∧
              env.isfile ((applyUI s.config ui).image_path) = true) ∧
          (applyUI s.config ui).allow_blank_single = false) ∨
        (¬ (applyUI s.config ui).mode = "single" ∧
          list_images_in_folder env (applyUI s.config ui).image_path = [])) :
    (activate_screensaver env ui preview s).2.isSome = true ∧
      (activate_screensaver env ui preview s).1 =
        { s with
          root_key_bound := true
          config := applyUI s.config ui
          background_only := false } ∧
      (activate_screensaver env ui preview s).1.saver_active = false ∧
      (activate_screensaver env ui preview s).1.surfaces = s.surfaces ∧
      (activate_screensaver env ui preview s).1.slideshow_job = s.slideshow_job ∧
      (activate_screensaver env ui preview s).1.clock_job = s.clock_job ∧
      (activate_screensaver env ui preview s).1.current_images = s.current_images := by
  rcases hfail with ⟨hm, hi, hb⟩ | ⟨hm, hf⟩
  · have hred : activate_screensaver env ui preview s =
        ({ s with
            root_key_bound := true
            config := applyUI s.config ui
            background_only := false }, some "유효한 이미지 파일을 선택하세요.") := by
      unfold activate_screensaver
      rw [if_neg (by simp [hidle])]
      dsimp only
      rw [if_pos hm, if_neg hi, if_neg (by simp [hb])]
    rw [hred]
    exact ⟨rfl, rfl, hidle, rfl, rfl, rfl, rfl⟩
  · have hred : activate_screensaver env ui preview s =
        ({ s with
            root_key_bound := true
            config := applyUI s.config ui
            background_only := false }, some "폴더에 표시할 이미지가 없습니다.") := by
      unfold activate_screensaver
      rw [if_neg (by simp [hidle])]
      dsimp only
      rw [if_neg hm]
      rw [if_pos hf]
    rw [hred]
    exact ⟨rfl, rfl, hidle, rfl, rfl, rfl, rfl⟩

/-- Witness for `activation_failure_aborts`: single mode over an empty
filesystem with `allow_blank_single` off. -/
theorem activation_failure_aborts_witness :
    (activate_screensaver envA uiStrict false stIdleBg).2.isSome = true ∧
      (activate_screensaver envA uiStrict false stIdleBg).1 =
        { stIdleBg with
          root_key_bound := true
          config := applyUI stIdleBg.config uiStrict
          background_only := false } ∧
      (activate_screensaver envA uiStrict false stIdleBg).1.saver_active = false ∧
      (activate_screensaver envA uiStrict false stIdleBg).1.surfaces = stIdleBg.surfaces ∧
      (activate_screensaver envA uiStrict false stIdleBg).1.slideshow_job
        = stIdleBg.slideshow_job ∧
      (activate_screensaver envA uiStrict false stIdleBg).1.clock_job = stIdleBg.clock_job ∧
      (activate_screensaver envA uiStrict false stIdleBg).1.current_images
        = stIdleBg.current_images :=
  activation_failure_aborts envA uiStrict false stIdleBg (by decide)
    (Or.inl ⟨by decide, by decide, by decide⟩)

/-- C2 (counterexample to the claim as stated): after a background-only
session has exited, a failed activation is not free of leftover state —
it flips the observable `background_only` flag from `true` back to
`false`, so the pre-activation state is not restored. -/
theorem activation_failure_counterexample :
    (activate_screensaver envA uiStrict false stIdleBg).2.isSome = true ∧
      stIdleBg.saver_active = false ∧
      stIdleBg.background_only = true ∧
      (activate_screensaver envA uiStrict false stIdleBg).1.background_only = false ∧
      (activate_screensaver envA uiStrict false stIdleBg).1 ≠ stIdleBg := by
  refine ⟨by decide, by decide, by decide, by decide, fun h => ?_⟩
  have hbg := congrArg AppState.background_only h
  rw [show (activate_screensaver envA uiStrict false stIdleBg).1.background_only = false
      from by decide, show stIdleBg.background_only = true from by decide] at hbg
  exact absurd hbg (by decide)

/-! ## C8 : deterministic folder order without shuffle -/

/-- C8: in folder mode with shuffling disabled, activation resolves the
image list as the directory enumeration order (filtered to supported
extensions) with no reordering, so any two activations over the same
directory contents produce the same list. -/
theorem folder_order_deterministic (env : Env) (ui : UIVals) (p1 p2 : Bool)
    (s1 s2 : AppState)
    (hmode : ¬ ui.mode = "single")
    (hsh : ui.shuffle = false)
    (h1 : s1.saver_active = false) (h2 : s2.saver_active = false)
    (hne : ¬ list_images_in_folder env ui.image_path = []) :
    (activate_screensaver env ui p1 s1).1.current_images =
        (list_images_in_folder env ui.image_path).map some ∧
      (activate_screensaver env ui p1 s1).1.current_images =
        (activate_screensaver env ui p2 s2).1.current_images := by
  have key : ∀ (preview : Bool) (s : AppState), s.saver_active = false →
      (activate_screensaver env ui preview s).1.current_images =
        (list_images_in_folder env ui.image_path).map some := by
    intro preview s hs
    unfold activate_screensaver
    rw [if_neg (by simp [hs])]
    dsimp only [applyUI]
    rw [if_neg hmode]
    rw [if_neg hne, if_neg (by simp [hsh])]
    exact finish_activation_images env preview _ _
  exact ⟨key p1 s1 h1, (key p1 s1 h1).trans (key p2 s2 h2).symm⟩

/-- Witness for `folder_order_deterministic`: the listing
`["b.png", "a.jpg", "c.txt"]` resolves to `b.png` then `a.jpg` (order
preserved, `c.txt` filtered out) from two different idle states. -/
theorem folder_order_deterministic_witness :
    (activate_screensaver envF uiFolder true (init_state default_config false)).1.current_images
        = (list_images_in_folder envF uiFolder.image_path).map some ∧
      (activate_screensaver envF uiFolder true
            (init_state default_config false)).1.current_images =
        (activate_screensaver envF uiFolder false stIdleBg).1.current_images :=
  folder_order_deterministic envF uiFolder true false (init_state default_config false)
    stIdleBg (by decide) rfl rfl (by decide) (by decide)

end ScreensaverApp
